import Mathlib

/-!
# Verification of the Rejseplanen departure-board normalizer/classifier

Shallow embedding of `src/rejseplanen/app.py` and
`src/fetch_departure_board.py` (python).  JSON values decoded by
`json.loads` are modelled by `JVal`; Python dicts by association lists
(unique keys in practice, lookup takes the first match).  Python numbers
are modelled by `Int` (the programs never do arithmetic on payload
numbers; only truthiness matters, and `0`/`0.0` are both falsy).
Unicode-specific behaviour (`str.lower`, `\s` beyond ASCII) is modelled
on the ASCII range, which covers every string the programs treat
specially.
-/

namespace Rejseplanen

/-- A decoded JSON value (the result of `json.loads`), including Python
`None`/`True`/`False`. -/
inductive JVal where
  | null : JVal
  | bool : Bool → JVal
  | num : Int → JVal
  | str : String → JVal
  | arr : List JVal → JVal
  | obj : List (String × JVal) → JVal
  deriving Repr

/-- A Python dict holding JSON data: association list, first match wins. -/
abbrev PyDict := List (String × JVal)

/-- `d.get(k)` on a dict: the stored value, or `None` when the key is absent. -/
def pyGet (d : PyDict) (k : String) : JVal :=
  match d.find? (fun kv => kv.1 = k) with
  | some kv => kv.2
  | none => JVal.null

/-- `d.get(k, default)`: the stored value (even `None`), or `default` when
the key is absent. -/
def pyGetD (d : PyDict) (k : String) (dflt : JVal) : JVal :=
  match d.find? (fun kv => kv.1 = k) with
  | some kv => kv.2
  | none => dflt

/-- Python truthiness (`bool(v)`) of a JSON value. -/
def truthy : JVal → Bool
  | .null => false
  | .bool b => b
  | .num n => n ≠ 0
  | .str s => s ≠ ""
  | .arr xs => !xs.isEmpty
  | .obj kvs => !kvs.isEmpty

/-- Python truthiness of an `str | None` value. -/
def truthyStr : Option String → Bool
  | none => false
  | some s => s ≠ ""

/-- The whitespace class (`\s` in `re`, `str.strip`, `str.isspace`),
restricted to ASCII. -/
def isPySpace (c : Char) : Bool :=
  c = ' ' ∨ c = '\t' ∨ c = '\n' ∨ c = '\r' ∨ c = '\x0b' ∨ c = '\x0c'

/-- `str.strip()`: remove leading and trailing whitespace. -/
def pyStrip (s : String) : String :=
  ⟨((s.data.dropWhile isPySpace).reverse.dropWhile isPySpace).reverse⟩

/-- `str.lower()` on the ASCII range. -/
def lowerChar (c : Char) : Char :=
  if 'A' ≤ c ∧ c ≤ 'Z' then Char.ofNat (c.toNat + 32) else c

/-- `str.lower()` of a string (ASCII model). -/
def pyLower (s : String) : String := ⟨s.data.map lowerChar⟩

/-! ## `listify` (`app.py:30`, `fetch_departure_board.py:89`)

    def listify(value):
        if value is None: return []
        if isinstance(value, list): return value
        return [value]
-/

/-- The scalar-or-sequence coercion `listify`. -/
def listify : JVal → List JVal
  | .null => []
  | .arr xs => xs
  | v => [v]

/-! ## `parse_departure_datetime` (`app.py:19`, `fetch_departure_board.py:97`)

Model of `datetime.strptime(f"{date_value} {time_value}", fmt)` for the
two formats `"%Y-%m-%d %H:%M:%S"` and `"%Y-%m-%d %H:%M"`, tried in that
order, `ValueError` making it fall through to the next format / `None`.

CPython's `_strptime` compiles each directive to a regex fragment:
  `%Y` ↦ `\d\d\d\d`, `%m` ↦ `1[0-2]|0[1-9]|[1-9]`,
  `%d` ↦ `3[01]|[12]\d|0[1-9]|[1-9]`, `%H` ↦ `2[0-3]|[0-1]\d|\d`,
  `%M` ↦ `[0-5]\d|\d`, `%S` ↦ `6[0-1]|[0-5]\d|\d`,
a whitespace run in the format ↦ `\s+`, other characters are literals;
the whole input must be consumed, and the resulting numbers are then fed
to the `datetime` constructor, which raises on year `0`, on a day
exceeding the month's length, and on a leap second (`60`/`61`).
Each two-digit alternative is followed in the format by a character that
can never be a digit (`-`, `:`, whitespace or end of input), so the
regex backtracking never prefers the one-digit alternative when the
two-digit one matches: committing to the longest alternative is faithful. -/

structure DTx where
  y : Nat
  mo : Nat
  d : Nat
  h : Nat
  mi : Nat
  s : Nat
  deriving Repr, DecidableEq

/-- Chronological order key; components stay below their radix, so this
is the lexicographic (= `datetime`) order. -/
def DTx.key (t : DTx) : Nat :=
  ((((t.y * 13 + t.mo) * 32 + t.d) * 24 + t.h) * 60 + t.mi) * 60 + t.s

/-- Strict `datetime` comparison `a < b`. -/
def dtLt (a b : DTx) : Bool := a.key < b.key

def digitVal (c : Char) : Option Nat :=
  if '0' ≤ c ∧ c ≤ '9' then some (c.toNat - 48) else none

/-- One numeric directive: try the two-digit alternatives (`two d1 d2`)
first, then the one-digit alternative (`one d1`), as the compiled regex
does. -/
def parseNum2or1 (two : Nat → Nat → Bool) (one : Nat → Bool) :
    List Char → Option (Nat × List Char)
  | c1 :: c2 :: rest =>
    match digitVal c1, digitVal c2 with
    | some d1, some d2 =>
      if two d1 d2 then some (d1 * 10 + d2, rest)
      else if one d1 then some (d1, c2 :: rest) else none
    | some d1, _ => if one d1 then some (d1, c2 :: rest) else none
    | none, _ => none
  | [c1] =>
    match digitVal c1 with
    | some d1 => if one d1 then some (d1, []) else none
    | none => none
  | [] => none

/-- `%Y`: exactly four digits. -/
def parseYear4 : List Char → Option (Nat × List Char)
  | c1 :: c2 :: c3 :: c4 :: rest =>
    match digitVal c1, digitVal c2, digitVal c3, digitVal c4 with
    | some d1, some d2, some d3, some d4 =>
        some (((d1 * 10 + d2) * 10 + d3) * 10 + d4, rest)
    | _, _, _, _ => none
  | _ => none

/-- A literal character in the format. -/
def parseLit (ch : Char) : List Char → Option (List Char)
  | c :: rest => if c = ch then some rest else none
  | [] => none

/-- `\s+`: one or more whitespace characters (maximal munch; the next
directive always starts with a digit, so no backtracking is needed). -/
def parseWs1 (cs : List Char) : Option (List Char) :=
  match cs with
  | c :: rest => if isPySpace c then some (rest.dropWhile isPySpace) else none
  | [] => none

def parseMonth := parseNum2or1
  (fun d1 d2 => (d1 = 1 ∧ d2 ≤ 2) ∨ (d1 = 0 ∧ 1 ≤ d2)) (fun d1 => 1 ≤ d1)

def parseDay := parseNum2or1
  (fun d1 d2 => (d1 = 3 ∧ d2 ≤ 1) ∨ d1 = 1 ∨ d1 = 2 ∨ (d1 = 0 ∧ 1 ≤ d2))
  (fun d1 => 1 ≤ d1)

def parseHour := parseNum2or1
  (fun d1 d2 => (d1 = 2 ∧ d2 ≤ 3) ∨ d1 ≤ 1) (fun _ => true)

def parseMinute := parseNum2or1 (fun d1 _ => d1 ≤ 5) (fun _ => true)

def parseSecond := parseNum2or1
  (fun d1 d2 => (d1 = 6 ∧ d2 ≤ 1) ∨ d1 ≤ 5) (fun _ => true)

/-- Gregorian leap year, as `datetime` uses. -/
def isLeap (y : Nat) : Bool := (y % 4 = 0 ∧ y % 100 ≠ 0) ∨ y % 400 = 0

def daysInMonth (y mo : Nat) : Nat :=
  if mo = 2 then (if isLeap y then 29 else 28)
  else if mo = 4 ∨ mo = 6 ∨ mo = 9 ∨ mo = 11 then 30
  else 31

/-- The `datetime(...)` constructor's validity checks on what the regex
lets through: year ≥ 1, day within the month, second ≤ 59. -/
def dtValid (t : DTx) : Bool :=
  1 ≤ t.y ∧ t.d ≤ daysInMonth t.y t.mo ∧ t.s ≤ 59

/-- `strptime(s, "%Y-%m-%d %H:%M:%S")` (`withSeconds = true`) or
`strptime(s, "%Y-%m-%d %H:%M")` (`withSeconds = false`), returning
`none` where Python raises `ValueError`. -/
def strptimeFmt (withSeconds : Bool) (cs : List Char) : Option DTx := do
  let (y, cs) ← parseYear4 cs
  let cs ← parseLit '-' cs
  let (mo, cs) ← parseMonth cs
  let cs ← parseLit '-' cs
  let (d, cs) ← parseDay cs
  let cs ← parseWs1 cs
  let (h, cs) ← parseHour cs
  let cs ← parseLit ':' cs
  let (mi, cs) ← parseMinute cs
  if withSeconds then
    let cs ← parseLit ':' cs
    let (s, cs) ← parseSecond cs
    if cs = [] then
      let t : DTx := ⟨y, mo, d, h, mi, s⟩
      if dtValid t then some t else none
    else none
  else
    if cs = [] then
      let t : DTx := ⟨y, mo, d, h, mi, 0⟩
      if dtValid t then some t else none
    else none

/-- `parse_departure_datetime(date_value, time_value)`. -/
def parse_departure_datetime (dateValue timeValue : JVal) : Option DTx :=
  match dateValue, timeValue with
  | .str ds, .str ts =>
    let cs := (ds ++ " " ++ ts).data
    match strptimeFmt true cs with
    | some t => some t
    | none => strptimeFmt false cs
  | _, _ => none

/-! ## `parse_partial_cancellation` (`app.py:46`)

    re.search(r"mellem\s+(.+?)\s+og\s+(.+?)(?:\.+\s|$)", note_text, re.IGNORECASE)

Backtracking model of this one regex, with Python's priorities: leftmost
starting position; greedy `\s+` prefers the longest run; lazy `(.+?)`
prefers the shortest; `.` matches anything but `'\n'`; `IGNORECASE` is
modelled on ASCII (every case-sensitive literal in the pattern is ASCII).
The `\s+` before `og` is followed by the literal `'o'` and the `\.+` is
followed by `\s`, so those two quantifiers never benefit from giving
characters back and maximal munch is faithful; the other two `\s+` are
followed by `.` (which matches a space), so their lengths are genuinely
backtracked, longest first. -/

/-- Case-insensitive (ASCII) literal prefix; returns the remainder. -/
def ciPrefix : List Char → List Char → Option (List Char)
  | [], cs => some cs
  | _ :: _, [] => none
  | p :: ps, c :: cs => if lowerChar c = lowerChar p then ciPrefix ps cs else none

/-- Length of the leading whitespace run. -/
def spaceRunLen (cs : List Char) : Nat := (cs.takeWhile isPySpace).length

/-- `(?:\.+\s|$)` at `cs`: end of string, or one or more dots followed by
a whitespace character. -/
def tailDotsOrEnd (cs : List Char) : Bool :=
  match cs with
  | [] => true
  | '.' :: rest =>
    match rest.dropWhile (fun c => c = '.') with
    | c :: _ => isPySpace c
    | [] => false
  | _ => false

/-- Lazy `(.+?)` for group 2: the shortest non-empty newline-free prefix
after which `(?:\.+\s|$)` matches. -/
def matchGroup2 : List Char → List Char → Option (List Char)
  | [], _ => none
  | c :: rest, acc =>
    if c = '\n' then none
    else
      let acc2 := acc ++ [c]
      if tailDotsOrEnd rest then some acc2 else matchGroup2 rest acc2

/-- The `\s+` after `og`, trying run lengths `j, j-1, …, 1` (greedy),
then group 2. -/
def ogSpacesThenGroup2 (cs : List Char) : Nat → Option (List Char)
  | 0 => none
  | j + 1 =>
    match matchGroup2 (cs.drop (j + 1)) [] with
    | some g2 => some g2
    | none => ogSpacesThenGroup2 cs j

/-- `\s+og\s+(.+?)(?:\.+\s|$)` at `cs` (the part after group 1). -/
def middleAndGroup2 (cs : List Char) : Option (List Char) :=
  let k := spaceRunLen cs
  if k = 0 then none
  else
    match ciPrefix ['o', 'g'] (cs.drop k) with
    | some rest =>
      let k2 := spaceRunLen rest
      if k2 = 0 then none else ogSpacesThenGroup2 rest k2
    | none => none

/-- Lazy `(.+?)` for group 1: the shortest non-empty newline-free prefix
after which the rest of the pattern matches. -/
def matchGroup1 : List Char → List Char → Option (List Char × List Char)
  | [], _ => none
  | c :: rest, acc =>
    if c = '\n' then none
    else
      let acc2 := acc ++ [c]
      match middleAndGroup2 rest with
      | some g2 => some (acc2, g2)
      | none => matchGroup1 rest acc2

/-- The `\s+` after `mellem`, trying run lengths `j, j-1, …, 1` (greedy),
then group 1. -/
def mellemSpacesThenGroup1 (cs : List Char) : Nat → Option (List Char × List Char)
  | 0 => none
  | j + 1 =>
    match matchGroup1 (cs.drop (j + 1)) [] with
    | some r => some r
    | none => mellemSpacesThenGroup1 cs j

/-- The whole pattern anchored right after a `mellem` literal. -/
def afterMellem (cs : List Char) : Option (List Char × List Char) :=
  let k := spaceRunLen cs
  if k = 0 then none else mellemSpacesThenGroup1 cs k

/-- `re.search`: try every start position left to right. -/
def searchMellem : List Char → Option (List Char × List Char)
  | [] => none
  | c :: rest =>
    match ciPrefix ['m', 'e', 'l', 'l', 'e', 'm'] (c :: rest) with
    | some afterLit =>
      match afterMellem afterLit with
      | some r => some r
      | none => searchMellem rest
    | none => searchMellem rest

/-- `parse_partial_cancellation(note_text)`: the two captured names,
stripped, or `None` when the pattern does not match. -/
def parse_partial_cancellation (noteText : String) : Option (String × String) :=
  match searchMellem noteText.data with
  | some (g1, g2) => some (pyStrip ⟨g1⟩, pyStrip ⟨g2⟩)
  | none => none

/-! ## Note handling (`app.py:38`, `app.py:54`) -/

def PART_CANCELLED_NOTE_KEY : String :=
  "text.realtime.journey.partially.cancelled.between"

/-- Python `v == s` for a JSON value and a string constant: `False`
unless `v` is that string. -/
def jvalEqStr (v : JVal) (s : String) : Bool :=
  match v with
  | .str t => t = s
  | _ => false

/-- `extract_note_text`, folded over the key priority list. -/
def extractFromKeys (note : PyDict) : List String → Option String
  | [] => none
  | k :: ks =>
    match pyGet note k with
    | .str s => if pyStrip s ≠ "" then some (pyStrip s) else extractFromKeys note ks
    | _ => extractFromKeys note ks

/-- `extract_note_text(note)`: first non-blank string among
`txtN`, `value`, `text`, stripped. -/
def extract_note_text (note : PyDict) : Option String :=
  extractFromKeys note ["txtN", "value", "text"]

/-- The record `extract_destination_update` returns. -/
structure DestUpdate where
  scheduledDirection : JVal
  actualDirection : JVal
  destinationChanged : Bool
  cancelledBetweenFrom : Option String
  cancelledBetweenTo : Option String
  serviceMessage : Option String

/-- One iteration of the note loop of `extract_destination_update` for a
dict note: capture the first `"R"`-typed service message, then overwrite
the partial-cancellation fields when key and pattern match. -/
def noteStep (kvs : PyDict) (st : DestUpdate) : DestUpdate :=
  let noteText := extract_note_text kvs
  let st1 :=
    if !truthyStr st.serviceMessage ∧ noteText.isSome ∧
        jvalEqStr (pyGet kvs "type") "R"
    then { st with serviceMessage := noteText }
    else st
  if jvalEqStr (pyGet kvs "key") PART_CANCELLED_NOTE_KEY then
    match noteText with
    | some txt =>
      match parse_partial_cancellation txt with
      | some (f, t) =>
        { st1 with
          cancelledBetweenFrom := some f
          cancelledBetweenTo := some t
          destinationChanged := true
          actualDirection := .str f }
      | none => st1
    | none => st1
  else st1

/-- The note loop of `extract_destination_update`, over the coerced note
list, threading the mutated locals; non-dict notes are skipped. -/
def eduGo : List JVal → DestUpdate → DestUpdate
  | [], st => st
  | note :: rest, st =>
    match note with
    | .obj kvs => eduGo rest (noteStep kvs st)
    | _ => eduGo rest st

/-- `extract_destination_update(dep)` (`app.py:54`). -/
def extract_destination_update (dep : PyDict) : DestUpdate :=
  let scheduled := pyGet dep "direction"
  let notes : PyDict := match pyGet dep "Notes" with | .obj kvs => kvs | _ => []
  eduGo (listify (pyGet notes "Note"))
    { scheduledDirection := scheduled
      actualDirection := scheduled
      destinationChanged := false
      cancelledBetweenFrom := none
      cancelledBetweenTo := none
      serviceMessage := none }

/-! ## `compact_departure_data` (`app.py:92`) -/

/-- The compact record `app.py` builds per departure. -/
structure CompactRow where
  trainId : JVal
  direction : JVal
  scheduledDirection : JVal
  actualDirection : JVal
  destinationChanged : Bool
  cancelledBetweenFrom : Option String
  cancelledBetweenTo : Option String
  partCancelled : Bool
  serviceMessage : Option String
  departs : JVal
  plannedDate : JVal
  plannedTime : JVal
  actualDate : JVal
  actualTime : JVal
  status : String

/-- `dep.get("ProductAtStop", {}).get("catOut") if isinstance(dep.get("ProductAtStop"), dict) else None`. -/
def catOutOf (dep : PyDict) : JVal :=
  match pyGet dep "ProductAtStop" with
  | .obj p => pyGet p "catOut"
  | _ => .null

/-- The `continue` condition of the category filter in
`app.py:105-111`: skip only when an active (non-empty string) filter is
set, `catOut` is a string, and the lowercased values differ. -/
def skipApp (catOutFilter : Option String) (dep : PyDict) : Bool :=
  match catOutFilter, catOutOf dep with
  | some f, .str c => f ≠ "" ∧ pyLower c ≠ pyLower f
  | _, _ => false

/-- The status computation of `app.py:119-126`. -/
def statusOf (dep : PyDict) : String :=
  if truthy (pyGetD dep "cancelled" (.bool false)) then "cancelled"
  else
    match parse_departure_datetime (pyGet dep "date") (pyGet dep "time"),
        parse_departure_datetime (pyGet dep "rtDate") (pyGet dep "rtTime") with
    | some plannedDt, some actualDt =>
      if dtLt plannedDt actualDt then "delayed" else "on_time"
    | _, _ => "on_time"

/-- The row appended for one departure dict (`app.py:130-148`). -/
def compactRow (dep : PyDict) : CompactRow :=
  let du := extract_destination_update dep
  { trainId := pyGet dep "name"
    direction := pyGet dep "direction"
    scheduledDirection := du.scheduledDirection
    actualDirection := du.actualDirection
    destinationChanged := du.destinationChanged
    cancelledBetweenFrom := du.cancelledBetweenFrom
    cancelledBetweenTo := du.cancelledBetweenTo
    partCancelled := truthy (pyGetD dep "partCancelled" (.bool false))
    serviceMessage := du.serviceMessage
    departs := pyGet dep "stop"
    plannedDate := pyGet dep "date"
    plannedTime := pyGet dep "time"
    actualDate := pyGet dep "rtDate"
    actualTime := pyGet dep "rtTime"
    status := statusOf dep }

/-- The departure loop of `app.py:100-148`: non-dicts and filtered-out
departures are skipped, every other departure appends one row. -/
def compactRowsApp (catOutFilter : Option String) : List JVal → List CompactRow
  | [] => []
  | v :: rest =>
    match v with
    | .obj dep =>
      if skipApp catOutFilter dep then compactRowsApp catOutFilter rest
      else compactRow dep :: compactRowsApp catOutFilter rest
    | _ => compactRowsApp catOutFilter rest

/-- `compact_departure_data(payload, cat_out_filter)` (`app.py:92`). -/
def compact_departure_data (payload : PyDict) (catOutFilter : Option String) :
    List CompactRow :=
  match pyGet payload "Departure" with
  | .null => []
  | .arr xs => compactRowsApp catOutFilter xs
  | v => compactRowsApp catOutFilter [v]

/-! ## `compact_departure_data` (`fetch_departure_board.py:108`) -/

/-- The compact record `fetch_departure_board.py` builds per departure. -/
structure CompactRowBasic where
  trainId : JVal
  direction : JVal
  departs : JVal
  plannedDate : JVal
  plannedTime : JVal
  actualDate : JVal
  actualTime : JVal
  status : String

def compactRowBasic (dep : PyDict) : CompactRowBasic :=
  { trainId := pyGet dep "name"
    direction := pyGet dep "direction"
    departs := pyGet dep "stop"
    plannedDate := pyGet dep "date"
    plannedTime := pyGet dep "time"
    actualDate := pyGet dep "rtDate"
    actualTime := pyGet dep "rtTime"
    status := statusOf dep }

def compactRowsBasic : List JVal → List CompactRowBasic
  | [] => []
  | v :: rest =>
    match v with
    | .obj dep => compactRowBasic dep :: compactRowsBasic rest
    | _ => compactRowsBasic rest

/-- `compact_departure_data(payload)` of the fetch script. -/
def compact_departure_data_fetch (payload : PyDict) : List CompactRowBasic :=
  compactRowsBasic (listify (pyGet payload "Departure"))

/-! ## The `--cat-out` filter stage of the fetch script
(`fetch_departure_board.py:401-416`). -/

/-- `str.split(",")`: split at every comma, keeping empty pieces. -/
def splitCommaAux : List Char → List Char → List String
  | [], acc => [⟨acc.reverse⟩]
  | c :: rest, acc =>
    if c = ',' then (⟨acc.reverse⟩ : String) :: splitCommaAux rest []
    else splitCommaAux rest (c :: acc)

def pySplitComma (s : String) : List String := splitCommaAux s.data []

/-- `{item.strip().lower() for item in cat_out.split(",") if item.strip()}`
(as a list; only membership is used). -/
def parseCatFilters (catOut : String) : List String :=
  (pySplitComma catOut).filterMap
    (fun item => if pyStrip item ≠ "" then some (pyLower (pyStrip item)) else none)

/-- The fetch filter loop (`for dep in departures: … filtered.append(dep)`). -/
def fetchFilterLoop (filters : List String) : List JVal → List JVal
  | [] => []
  | dep :: rest =>
    match dep with
    | .obj kvs =>
      match catOutOf kvs with
      | .str c =>
        if filters.contains (pyLower c) then .obj kvs :: fetchFilterLoop filters rest
        else fetchFilterLoop filters rest
      | _ => fetchFilterLoop filters rest
    | _ => fetchFilterLoop filters rest

/-- The whole filter stage: the new `payload["Departure"]` list. -/
def fetchCatFilterStage (catOut : String) (payload : PyDict) : List JVal :=
  fetchFilterLoop (parseCatFilters catOut) (listify (pyGet payload "Departure"))

/-! ## `build_payload` (`app.py:152`) / `build_mqtt_payload`
(`fetch_departure_board.py:144`).

The `updated` timestamp is produced by `datetime.now(...)` at call time;
it is passed in as a parameter.  The `items` field holds either a row
list or the integer error sentinel `-1`. -/

inductive ItemsField (ρ : Type) where
  | sentinel : Int → ItemsField ρ
  | rows : List ρ → ItemsField ρ

/-- The result envelope. -/
structure Payload (ρ : Type) where
  count : Int
  items : ItemsField ρ
  updated : String
  ok : Bool
  error : Option String

/-- `build_payload(items=..., error=...)` from `app.py:152`. -/
def build_payload (updated : String) (items : Option (List CompactRow))
    (error : Option String) : Payload CompactRow :=
  let base : Payload CompactRow :=
    { count := -1, items := .rows [], updated := updated, ok := false, error := none }
  if truthyStr error then
    { base with items := .sentinel (-1), error := error }
  else
    let values := items.getD []
    { base with count := values.length, items := .rows values, ok := true }

/-- `build_mqtt_payload(items=..., error=...)` from
`fetch_departure_board.py:144` (same algorithm over the basic rows). -/
def build_mqtt_payload (updated : String) (items : Option (List CompactRowBasic))
    (error : Option String) : Payload CompactRowBasic :=
  let base : Payload CompactRowBasic :=
    { count := -1, items := .rows [], updated := updated, ok := false, error := none }
  if truthyStr error then
    { base with items := .sentinel (-1), error := error }
  else
    let values := items.getD []
    { base with count := values.length, items := .rows values, ok := true }

/-! ## Exit-code models of the two `main` functions.

The network fetch and the MQTT publish are external collaborators; they
are modelled by oracle parameters: `FetchOutcome` is either the decoded
payload or one of the exception kinds each script catches, and
`publishOk` tells whether `publish…` returns or raises.  Each model
returns the process exit status together with a flag recording whether
the network call was attempted. -/

inductive FetchOutcome where
  | ok : PyDict → FetchOutcome
  | exc : String → FetchOutcome

/-- Python `v is False`. -/
def isPyFalse : JVal → Bool
  | .bool false => true
  | _ => false

/-- `main()` of `src/rejseplanen/app.py:228-278`.  The final
`payload.get("ok") is False` test is `True` exactly when the payload is
an error envelope (`ok = False`) or, in raw mode, when the upstream dict
itself carries `"ok": false`. -/
def appMain (mqttOn compactData : Bool) (accessId : Option String)
    (fetch : FetchOutcome) (publishOk : Bool) : Nat × Bool :=
  if mqttOn ∧ !compactData then (1, false)
  else if !truthyStr accessId then (1, false)
  else
    let payloadOkIsFalse : Bool :=
      match fetch with
      | .exc _ => true
      | .ok raw =>
        if truthy (pyGet raw "errorCode") then true
        else if compactData then false
        else isPyFalse (pyGet raw "ok")
    if mqttOn ∧ !publishOk then (1, true)
    else (if payloadOkIsFalse then 1 else 0, true)

/-- `main()` of `src/fetch_departure_board.py:329-439`. -/
def fetchMain (mqttOn compactData : Bool) (accessId : Option String)
    (fetch : FetchOutcome) (publishOk : Bool) : Nat × Bool :=
  if mqttOn ∧ !compactData then (2, false)
  else if !truthyStr accessId then (if mqttOn then (1, false) else (2, false))
  else
    match fetch with
    | .exc _ => (1, true)
    | .ok raw =>
      if truthy (pyGet raw "errorCode") then (1, true)
      else if compactData then
        if mqttOn then (if publishOk then (0, true) else (1, true))
        else (0, true)
      else (0, true)

/-! ## Exception-aware re-embedding of the classifier pipeline.

Python raises `AttributeError` when `.get` is called on a non-dict.  The
pipeline guards every such call with an `isinstance` check; to prove
that this defence is complete (claim: the pipeline is total however
malformed the payload), the same code is re-embedded in `Except`, where
`pyGetE`/`pyGetDE` fail on non-dicts exactly as Python would, and is
then proven to never fail. -/

/-- `v.get(k)` where `v` may not be a dict. -/
def pyGetE (v : JVal) (k : String) : Except String JVal :=
  match v with
  | .obj kvs => .ok (pyGet kvs k)
  | _ => .error "AttributeError: 'get' on a non-dict"

/-- `v.get(k, dflt)` where `v` may not be a dict. -/
def pyGetDE (v : JVal) (k : String) (dflt : JVal) : Except String JVal :=
  match v with
  | .obj kvs => .ok (pyGetD kvs k dflt)
  | _ => .error "AttributeError: 'get' on a non-dict"

def extractFromKeysE (note : JVal) : List String → Except String (Option String)
  | [] => pure none
  | k :: ks => do
    let v ← pyGetE note k
    match v with
    | .str s =>
      if pyStrip s ≠ "" then pure (some (pyStrip s)) else extractFromKeysE note ks
    | _ => extractFromKeysE note ks

def eduGoE : List JVal → DestUpdate → Except String DestUpdate
  | [], st => pure st
  | note :: rest, st =>
    match note with
    | .obj kvs => do
      let noteKey ← pyGetE (.obj kvs) "key"
      let noteType ← pyGetE (.obj kvs) "type"
      let noteText ← extractFromKeysE (.obj kvs) ["txtN", "value", "text"]
      let st1 :=
        if !truthyStr st.serviceMessage ∧ noteText.isSome ∧ jvalEqStr noteType "R"
        then { st with serviceMessage := noteText }
        else st
      if jvalEqStr noteKey PART_CANCELLED_NOTE_KEY then
        match noteText with
        | some txt =>
          match parse_partial_cancellation txt with
          | some (f, t) =>
            eduGoE rest { st1 with
              cancelledBetweenFrom := some f
              cancelledBetweenTo := some t
              destinationChanged := true
              actualDirection := .str f }
          | none => eduGoE rest st1
        | none => eduGoE rest st1
      else eduGoE rest st1
    | _ => eduGoE rest st

def extract_destination_updateE (dep : JVal) : Except String DestUpdate := do
  let scheduled ← pyGetE dep "direction"
  let notesV ← pyGetE dep "Notes"
  let notes : JVal := match notesV with | .obj _ => notesV | _ => .obj []
  let noteList ← pyGetE notes "Note"
  eduGoE (listify noteList)
    { scheduledDirection := scheduled
      actualDirection := scheduled
      destinationChanged := false
      cancelledBetweenFrom := none
      cancelledBetweenTo := none
      serviceMessage := none }

/-- The guarded
`dep.get("ProductAtStop", {}).get("catOut") if isinstance(...) else None`
in the exception-aware embedding. -/
def catOutE (dep : PyDict) : Except String JVal :=
  match pyGet dep "ProductAtStop" with
  | .obj _ => do
    let pasD ← pyGetDE (.obj dep) "ProductAtStop" (.obj [])
    pyGetE pasD "catOut"
  | _ => pure JVal.null

/-- The row construction of the loop body in the exception-aware
embedding. -/
def compactRowE (dep : PyDict) : Except String CompactRow := do
  let plannedDate ← pyGetE (.obj dep) "date"
  let plannedTime ← pyGetE (.obj dep) "time"
  let actualDate ← pyGetE (.obj dep) "rtDate"
  let actualTime ← pyGetE (.obj dep) "rtTime"
  let cancelledV ← pyGetDE (.obj dep) "cancelled" (.bool false)
  let status :=
    if truthy cancelledV then "cancelled"
    else
      match parse_departure_datetime plannedDate plannedTime,
          parse_departure_datetime actualDate actualTime with
      | some plannedDt, some actualDt =>
        if dtLt plannedDt actualDt then "delayed" else "on_time"
      | _, _ => "on_time"
  let du ← extract_destination_updateE (.obj dep)
  let nameV ← pyGetE (.obj dep) "name"
  let directionV ← pyGetE (.obj dep) "direction"
  let partCancelledV ← pyGetDE (.obj dep) "partCancelled" (.bool false)
  let stopV ← pyGetE (.obj dep) "stop"
  pure { trainId := nameV
         direction := directionV
         scheduledDirection := du.scheduledDirection
         actualDirection := du.actualDirection
         destinationChanged := du.destinationChanged
         cancelledBetweenFrom := du.cancelledBetweenFrom
         cancelledBetweenTo := du.cancelledBetweenTo
         partCancelled := truthy partCancelledV
         serviceMessage := du.serviceMessage
         departs := stopV
         plannedDate := plannedDate
         plannedTime := plannedTime
         actualDate := actualDate
         actualTime := actualTime
         status := status }

def compactRowsE (catOutFilter : Option String) : List JVal → Except String (List CompactRow)
  | [] => pure []
  | v :: rest =>
    match v with
    | .obj dep => do
      let catOut ← catOutE dep
      let skip : Bool :=
        match catOutFilter, catOut with
        | some f, .str c => f ≠ "" ∧ pyLower c ≠ pyLower f
        | _, _ => false
      if skip then compactRowsE catOutFilter rest
      else do
        let row ← compactRowE dep
        let rows ← compactRowsE catOutFilter rest
        pure (row :: rows)
    | _ => compactRowsE catOutFilter rest

/-- The whole classifier stage in the exception-aware embedding. -/
def compact_departure_dataE (payload : PyDict) (catOutFilter : Option String) :
    Except String (List CompactRow) :=
  match pyGet payload "Departure" with
  | .null => pure []
  | .arr xs => compactRowsE catOutFilter xs
  | v => compactRowsE catOutFilter [v]

/-! ## Spec-side definitions (worded after the specification, for
comparison with the source embeddings). -/

/-- The last element of a list, if any (spec wording: "the last matching
note in sequence order"). -/
def lastOpt {α : Type _} : List α → Option α
  | [] => none
  | a :: rest =>
    match lastOpt rest with
    | some x => some x
    | none => some a

/-- The coerced note sequence of a departure. -/
def notesListOf (dep : PyDict) : List JVal :=
  listify (pyGet (match pyGet dep "Notes" with | .obj kvs => kvs | _ => []) "Note")

/-- Spec side: the (from, to) pair a single dict note contributes — its
key must be the partial-cancellation key and its text must match the
pattern. -/
def pcOfNote (kvs : PyDict) : Option (String × String) :=
  if jvalEqStr (pyGet kvs "key") PART_CANCELLED_NOTE_KEY then
    match extract_note_text kvs with
    | some txt => parse_partial_cancellation txt
    | none => none
  else none

/-- Spec side: the service-message text a single dict note contributes —
its type must be `"R"` and its text extractable. -/
def rTextOfNote (kvs : PyDict) : Option String :=
  if jvalEqStr (pyGet kvs "type") "R" then extract_note_text kvs else none

/-- Spec side: the (from, to) pairs of the notes whose key is the
partial-cancellation key and whose text matches the pattern, in note
order. -/
def partialCancellations (notes : List JVal) : List (String × String) :=
  notes.filterMap (fun n =>
    match n with
    | .obj kvs => pcOfNote kvs
    | _ => none)

/-- Spec side: the text of the first note of type `"R"` with non-empty
extractable text. -/
def firstRMessage (notes : List JVal) : Option String :=
  (notes.filterMap (fun n =>
    match n with
    | .obj kvs => rTextOfNote kvs
    | _ => none)).head?

/-- Spec side: the status rule as the specification words it — `cancelled`
truthy wins; otherwise `delayed` exactly when both the planned and the
actual pair parse and the actual moment is strictly later; otherwise
`on_time`. -/
def claimStatus (dep : PyDict) : String :=
  let planned := parse_departure_datetime (pyGet dep "date") (pyGet dep "time")
  let actual := parse_departure_datetime (pyGet dep "rtDate") (pyGet dep "rtTime")
  if truthy (pyGetD dep "cancelled" (.bool false)) then "cancelled"
  else if planned.isSome ∧ actual.isSome ∧
      dtLt (planned.getD ⟨0, 0, 0, 0, 0, 0⟩) (actual.getD ⟨0, 0, 0, 0, 0, 0⟩) then
    "delayed"
  else "on_time"

/-- The length recorded in an envelope's `items` field (`-1` on the
sentinel). -/
def itemsCount {ρ : Type} : ItemsField ρ → Int
  | .sentinel n => n
  | .rows rs => rs.length

/-- Spec side (amended): the app filter keeps a departure unless an
active filter is set, the category is a string, and the lowercased
values differ — in particular a departure lacking a usable category
value is kept. -/
def appKeeps (catOutFilter : Option String) (dep : PyDict) : Bool :=
  match catOutFilter with
  | none => true
  | some f =>
    if f = "" then true
    else
      match catOutOf dep with
      | .str c => pyLower c = pyLower f
      | _ => true

/-- Spec side: a fetch-filter element is kept when it is a dict whose
`catOut` is a string lowercasing into the requested set. -/
def keepFetch (filters : List String) (v : JVal) : Bool :=
  match v with
  | .obj dep =>
    match catOutOf dep with
    | .str c => filters.contains (pyLower c)
    | _ => false
  | _ => false

/-- The concrete departure of the C5 example note. -/
def c5note : PyDict :=
  [("key", .str PART_CANCELLED_NOTE_KEY),
   ("txtN", .str "Toget er annulleret mellem København H og Østerport St.. Vi beklager.")]

def c5dep : PyDict :=
  [("direction", .str "Helsingør St."),
   ("Notes", .obj [("Note", .obj c5note)])]

/-! ## Theorems -/

/-- Texts extracted from a note are never empty (they pass a
non-blank-after-strip check). -/
theorem extract_note_text_ne_empty (note : PyDict) :
    ∀ (ks : List String) (txt : String), extractFromKeys note ks = some txt → txt ≠ "" := by
  intro ks
  induction ks with
  | nil => intro txt h; simp [extractFromKeys] at h
  | cons k ks ih =>
    intro txt h
    unfold extractFromKeys at h
    rcases hv : pyGet note k with _ | b | n | s | xs | kvs <;> rw [hv] at h <;>
      first
        | exact ih txt h
        | (by_cases hs : pyStrip s ≠ "" <;> simp [hs] at h
           · exact h ▸ hs
           · exact ih txt h)

theorem noteStep_scheduled (kvs : PyDict) (st : DestUpdate) :
    (noteStep kvs st).scheduledDirection = st.scheduledDirection := by
  unfold noteStep
  by_cases hc : (!truthyStr st.serviceMessage) = true ∧
      (extract_note_text kvs).isSome = true ∧ jvalEqStr (pyGet kvs "type") "R" = true <;>
    by_cases hkey : jvalEqStr (pyGet kvs "key") PART_CANCELLED_NOTE_KEY = true <;>
    simp only [hc, hkey, if_true, if_false, ite_true, ite_false] <;>
    first
      | rfl
      | (cases htext : extract_note_text kvs <;> simp only [htext] <;>
         first
           | rfl
           | (rcases hp : parse_partial_cancellation _ with _ | ⟨f, t⟩ <;>
              simp only [hp] <;> rfl))

theorem noteStep_from (kvs : PyDict) (st : DestUpdate) :
    (noteStep kvs st).cancelledBetweenFrom =
      match pcOfNote kvs with
      | some p => some p.1
      | none => st.cancelledBetweenFrom := by
  unfold noteStep pcOfNote
  by_cases hc : (!truthyStr st.serviceMessage) = true ∧
      (extract_note_text kvs).isSome = true ∧ jvalEqStr (pyGet kvs "type") "R" = true <;>
    by_cases hkey : jvalEqStr (pyGet kvs "key") PART_CANCELLED_NOTE_KEY = true <;>
    simp only [hc, hkey, if_true, if_false, ite_true, ite_false] <;>
    first
      | rfl
      | (cases htext : extract_note_text kvs <;> simp only [htext] <;>
         first
           | rfl
           | (rcases hp : parse_partial_cancellation _ with _ | ⟨f, t⟩ <;>
              simp only [hp] <;> rfl))

theorem noteStep_to (kvs : PyDict) (st : DestUpdate) :
    (noteStep kvs st).cancelledBetweenTo =
      match pcOfNote kvs with
      | some p => some p.2
      | none => st.cancelledBetweenTo := by
  unfold noteStep pcOfNote
  by_cases hc : (!truthyStr st.serviceMessage) = true ∧
      (extract_note_text kvs).isSome = true ∧ jvalEqStr (pyGet kvs "type") "R" = true <;>
    by_cases hkey : jvalEqStr (pyGet kvs "key") PART_CANCELLED_NOTE_KEY = true <;>
    simp only [hc, hkey, if_true, if_false, ite_true, ite_false] <;>
    first
      | rfl
      | (cases htext : extract_note_text kvs <;> simp only [htext] <;>
         first
           | rfl
           | (rcases hp : parse_partial_cancellation _ with _ | ⟨f, t⟩ <;>
              simp only [hp] <;> rfl))

theorem noteStep_changed (kvs : PyDict) (st : DestUpdate) :
    (noteStep kvs st).destinationChanged =
      match pcOfNote kvs with
      | some _ => true
      | none => st.destinationChanged := by
  unfold noteStep pcOfNote
  by_cases hc : (!truthyStr st.serviceMessage) = true ∧
      (extract_note_text kvs).isSome = true ∧ jvalEqStr (pyGet kvs "type") "R" = true <;>
    by_cases hkey : jvalEqStr (pyGet kvs "key") PART_CANCELLED_NOTE_KEY = true <;>
    simp only [hc, hkey, if_true, if_false, ite_true, ite_false] <;>
    first
      | rfl
      | (cases htext : extract_note_text kvs <;> simp only [htext] <;>
         first
           | rfl
           | (rcases hp : parse_partial_cancellation _ with _ | ⟨f, t⟩ <;>
              simp only [hp] <;> rfl))

theorem noteStep_actual (kvs : PyDict) (st : DestUpdate) :
    (noteStep kvs st).actualDirection =
      match pcOfNote kvs with
      | some p => JVal.str p.1
      | none => st.actualDirection := by
  unfold noteStep pcOfNote
  by_cases hc : (!truthyStr st.serviceMessage) = true ∧
      (extract_note_text kvs).isSome = true ∧ jvalEqStr (pyGet kvs "type") "R" = true <;>
    by_cases hkey : jvalEqStr (pyGet kvs "key") PART_CANCELLED_NOTE_KEY = true <;>
    simp only [hc, hkey, if_true, if_false, ite_true, ite_false] <;>
    first
      | rfl
      | (cases htext : extract_note_text kvs <;> simp only [htext] <;>
         first
           | rfl
           | (rcases hp : parse_partial_cancellation _ with _ | ⟨f, t⟩ <;>
              simp only [hp] <;> rfl))

theorem noteStep_msg (kvs : PyDict) (st : DestUpdate) :
    (noteStep kvs st).serviceMessage =
      if truthyStr st.serviceMessage then st.serviceMessage
      else
        match rTextOfNote kvs with
        | some t => some t
        | none => st.serviceMessage := by
  unfold noteStep rTextOfNote
  cases hmsg : truthyStr st.serviceMessage <;>
    by_cases hR : jvalEqStr (pyGet kvs "type") "R" = true <;>
    cases htext : extract_note_text kvs <;>
    by_cases hkey : jvalEqStr (pyGet kvs "key") PART_CANCELLED_NOTE_KEY = true <;>
    simp only [hmsg, hR, htext, hkey, Option.isSome_none, Option.isSome_some,
      Bool.not_false, Bool.not_true, Bool.false_eq_true, Bool.true_eq_false,
      false_and, true_and, and_false, and_true, if_true, if_false,
      ite_true, ite_false] <;>
    first
      | rfl
      | (rcases hp : parse_partial_cancellation _ with _ | ⟨f, t⟩ <;>
         simp only [hp] <;> rfl)

theorem rTextOfNote_ne_empty (kvs : PyDict) (t : String) (h : rTextOfNote kvs = some t) :
    t ≠ "" := by
  unfold rTextOfNote at h
  by_cases hR : jvalEqStr (pyGet kvs "type") "R" = true <;> simp [hR] at h
  exact extract_note_text_ne_empty kvs _ t h

theorem lastOpt_cons {α : Type _} (a : α) (l : List α) :
    lastOpt (a :: l) = some ((lastOpt l).getD a) := by
  cases h : lastOpt l <;> simp [lastOpt, h]

theorem partialCancellations_obj_cons (kvs : PyDict) (rest : List JVal) :
    partialCancellations (.obj kvs :: rest) =
      match pcOfNote kvs with
      | some p => p :: partialCancellations rest
      | none => partialCancellations rest := by
  simp only [partialCancellations, List.filterMap_cons]
  cases pcOfNote kvs <;> rfl

theorem firstRMessage_obj_cons (kvs : PyDict) (rest : List JVal) :
    firstRMessage (.obj kvs :: rest) =
      match rTextOfNote kvs with
      | some t => some t
      | none => firstRMessage rest := by
  simp only [firstRMessage, List.filterMap_cons]
  cases rTextOfNote kvs <;> simp

/-- Closed form of the note loop for an arbitrary starting state: the
last matching partial-cancellation note wins for the cancellation
fields, the first usable `"R"`-typed note wins for the service
message. -/
theorem eduGo_spec (notes : List JVal) : ∀ (st : DestUpdate),
    eduGo notes st =
      { scheduledDirection := st.scheduledDirection
        actualDirection :=
          match lastOpt (partialCancellations notes) with
          | some p => JVal.str p.1
          | none => st.actualDirection
        destinationChanged :=
          if (partialCancellations notes).isEmpty then st.destinationChanged else true
        cancelledBetweenFrom :=
          match lastOpt (partialCancellations notes) with
          | some p => some p.1
          | none => st.cancelledBetweenFrom
        cancelledBetweenTo :=
          match lastOpt (partialCancellations notes) with
          | some p => some p.2
          | none => st.cancelledBetweenTo
        serviceMessage :=
          if truthyStr st.serviceMessage then st.serviceMessage
          else
            match firstRMessage notes with
            | some t => some t
            | none => st.serviceMessage } := by
  induction notes with
  | nil => intro st; simp [eduGo, partialCancellations, firstRMessage, lastOpt]
  | cons note rest ih =>
    intro st
    rcases note with _ | b | n | s | xs | kvs
    case obj =>
      show eduGo rest (noteStep kvs st) = _
      rw [ih (noteStep kvs st), partialCancellations_obj_cons, firstRMessage_obj_cons,
        noteStep_scheduled, noteStep_from, noteStep_to, noteStep_changed,
        noteStep_actual, noteStep_msg]
      have hne : ∀ t, rTextOfNote kvs = some t → truthyStr (some t) = true := by
        intro t h
        simpa [truthyStr] using rTextOfNote_ne_empty kvs t h
      set pc := pcOfNote kvs with hpc
      set rt := rTextOfNote kvs with hrt
      clear_value pc rt
      rcases pc with _ | ⟨f0, t0⟩ <;> rcases rt with _ | t
      · cases hmsg : truthyStr st.serviceMessage <;> simp [hmsg, ite_self]
      · have ht := hne t rfl
        cases hmsg : truthyStr st.serviceMessage <;> simp [hmsg, ht]
      · cases hmsg : truthyStr st.serviceMessage <;>
          simp only [hmsg, lastOpt_cons, List.isEmpty_cons, ite_true, ite_false,
            ite_self, Bool.false_eq_true] <;>
          (set lo := lastOpt (partialCancellations rest) with hlo
           clear_value lo
           rcases lo with _ | q <;> simp)
      · have ht := hne t rfl
        cases hmsg : truthyStr st.serviceMessage <;>
          simp only [hmsg, ht, lastOpt_cons, List.isEmpty_cons, ite_true, ite_false,
            ite_self, Bool.false_eq_true] <;>
          (set lo := lastOpt (partialCancellations rest) with hlo
           clear_value lo
           rcases lo with _ | q <;> simp [ht])
    all_goals simp [eduGo, partialCancellations, firstRMessage, List.filterMap_cons, ih]

/-- C1: for every raw departure mapping, the classifier assigns status by
first-match priority: a truthy `cancelled` always gives `"cancelled"`;
otherwise `"delayed"` exactly when both the planned `(date, time)` pair
and the actual `(rtDate, rtTime)` pair parse (two formats tried in
order, non-string or unparseable sides absent) and the actual moment is
strictly later; `"on_time"` in every other case. -/
theorem c1_status_first_match_priority (dep : PyDict) :
    (compactRow dep).status = claimStatus dep := by
  show statusOf dep = claimStatus dep
  unfold statusOf claimStatus
  cases htr : truthy (pyGetD dep "cancelled" (.bool false)) <;> simp
  rcases hp : parse_departure_datetime (pyGet dep "date") (pyGet dep "time") with _ | p <;>
    rcases ha : parse_departure_datetime (pyGet dep "rtDate") (pyGet dep "rtTime") with _ | a <;>
    simp [hp, ha]

/-- C2: every envelope built by `build_payload` / `build_mqtt_payload`
satisfies `ok = true ↔ error = null ↔ count ≥ 0`; with a (non-empty)
error message the count is negative and the error non-null, and
otherwise — the success path, empty items included — the count is the
length of the stored items and the error is null. -/
theorem c2_envelope_invariant (updated : String)
    (itemsA : Option (List CompactRow)) (itemsB : Option (List CompactRowBasic))
    (error : Option String) :
    (((build_payload updated itemsA error).ok = true ↔
        (build_payload updated itemsA error).error = none) ∧
      ((build_payload updated itemsA error).error = none ↔
        0 ≤ (build_payload updated itemsA error).count) ∧
      (if truthyStr error then
        (build_payload updated itemsA error).count < 0 ∧
          (build_payload updated itemsA error).error ≠ none
      else
        (build_payload updated itemsA error).count =
            itemsCount (build_payload updated itemsA error).items ∧
          (build_payload updated itemsA error).error = none)) ∧
    (((build_mqtt_payload updated itemsB error).ok = true ↔
        (build_mqtt_payload updated itemsB error).error = none) ∧
      ((build_mqtt_payload updated itemsB error).error = none ↔
        0 ≤ (build_mqtt_payload updated itemsB error).count) ∧
      (if truthyStr error then
        (build_mqtt_payload updated itemsB error).count < 0 ∧
          (build_mqtt_payload updated itemsB error).error ≠ none
      else
        (build_mqtt_payload updated itemsB error).count =
            itemsCount (build_mqtt_payload updated itemsB error).items ∧
          (build_mqtt_payload updated itemsB error).error = none)) := by
  unfold build_payload build_mqtt_payload
  cases he : truthyStr error <;>
    · rcases error with _ | e <;> simp_all [truthyStr, itemsCount]

/-- C4: for every raw departure, the last note (in sequence order) whose
key is the partial-cancellation key and whose text matches the pattern
determines `cancelledBetweenFrom`, `cancelledBetweenTo` and
`actualDirection`, while `serviceMessage` is the text of the first note
of type `"R"` with non-empty text; with no matching note,
`actualDirection` stays `scheduledDirection` and `destinationChanged` is
false. -/
theorem c4_last_match_wins_first_R_message (dep : PyDict) :
    (extract_destination_update dep).scheduledDirection = pyGet dep "direction" ∧
      (extract_destination_update dep).cancelledBetweenFrom =
        (lastOpt (partialCancellations (notesListOf dep))).map Prod.fst ∧
      (extract_destination_update dep).cancelledBetweenTo =
        (lastOpt (partialCancellations (notesListOf dep))).map Prod.snd ∧
      (extract_destination_update dep).destinationChanged =
        !(partialCancellations (notesListOf dep)).isEmpty ∧
      (extract_destination_update dep).actualDirection =
        (match lastOpt (partialCancellations (notesListOf dep)) with
          | some p => JVal.str p.1
          | none => pyGet dep "direction") ∧
      (extract_destination_update dep).serviceMessage =
        firstRMessage (notesListOf dep) := by
  have hdef : extract_destination_update dep =
      eduGo (notesListOf dep)
        { scheduledDirection := pyGet dep "direction"
          actualDirection := pyGet dep "direction"
          destinationChanged := false
          cancelledBetweenFrom := none
          cancelledBetweenTo := none
          serviceMessage := none } := rfl
  rw [hdef, eduGo_spec]
  refine ⟨rfl, ?_, ?_, ?_, rfl, ?_⟩
  · cases lastOpt (partialCancellations (notesListOf dep)) <;> rfl
  · cases lastOpt (partialCancellations (notesListOf dep)) <;> rfl
  · cases (partialCancellations (notesListOf dep)).isEmpty <;> rfl
  · simp only [truthyStr, ite_false, Bool.false_eq_true]
    cases firstRMessage (notesListOf dep) <;> rfl

/-- C10: in every record the extended classifier produces,
`destinationChanged` holds exactly when `cancelledBetweenFrom` is
non-null, which happens exactly when `cancelledBetweenTo` is non-null;
when it holds `actualDirection` is the `cancelledBetweenFrom` name, and
otherwise `actualDirection` equals `scheduledDirection`, which is always
the raw `direction` field. -/
theorem c10_destination_invariant (dep : PyDict) :
    (extract_destination_update dep).scheduledDirection = pyGet dep "direction" ∧
      ((extract_destination_update dep).destinationChanged = true ↔
        (extract_destination_update dep).cancelledBetweenFrom.isSome = true) ∧
      ((extract_destination_update dep).cancelledBetweenFrom.isSome = true ↔
        (extract_destination_update dep).cancelledBetweenTo.isSome = true) ∧
      (match (extract_destination_update dep).cancelledBetweenFrom with
        | some f => (extract_destination_update dep).actualDirection = JVal.str f
        | none => (extract_destination_update dep).actualDirection =
            (extract_destination_update dep).scheduledDirection) := by
  have hdef : extract_destination_update dep =
      eduGo (notesListOf dep)
        { scheduledDirection := pyGet dep "direction"
          actualDirection := pyGet dep "direction"
          destinationChanged := false
          cancelledBetweenFrom := none
          cancelledBetweenTo := none
          serviceMessage := none } := rfl
  rw [hdef, eduGo_spec]
  cases hpcs : partialCancellations (notesListOf dep) with
  | nil => simp [lastOpt]
  | cons a rest => simp [lastOpt_cons]

/-- C5: the partial-cancellation note
`"... annulleret mellem København H og Østerport St.. ..."` yields
`cancelledBetweenFrom = "København H"`, `cancelledBetweenTo =
"Østerport St"` (trimmed, without the terminating period sequence),
`destinationChanged = true` and `actualDirection = "København H"`. -/
theorem c5_partial_cancellation_example :
    (extract_destination_update c5dep).cancelledBetweenFrom = some "København H" ∧
      (extract_destination_update c5dep).cancelledBetweenTo = some "Østerport St" ∧
      (extract_destination_update c5dep).destinationChanged = true ∧
      (extract_destination_update c5dep).actualDirection = JVal.str "København H" :=
  ⟨rfl, rfl, rfl, rfl⟩

/-- C6: the scalar-or-sequence coercion maps null (and absent, which
`dict.get` turns into null) to the empty sequence, a sequence to itself,
and a single mapping to the one-element sequence; consequently a payload
whose `Departure` lookup is null produces zero compact records. -/
theorem c6_listify_coercion :
    listify .null = [] ∧
      (∀ xs : List JVal, listify (.arr xs) = xs) ∧
      (∀ kvs : PyDict, listify (.obj kvs) = [.obj kvs]) ∧
      (∀ (payload : PyDict) (filt : Option String),
        pyGet payload "Departure" = .null → compact_departure_data payload filt = []) := by
  refine ⟨rfl, fun xs => rfl, fun kvs => rfl, fun payload filt h => ?_⟩
  unfold compact_departure_data
  rw [h]

/-- Witness for C6 at a concrete payload lacking a `Departure` field. -/
theorem c6_listify_coercion_witness :
    compact_departure_data [("foo", JVal.str "bar")] none = [] :=
  c6_listify_coercion.2.2.2 [("foo", JVal.str "bar")] none rfl

/-- C7: a bare mapping under `Departure` classifies exactly like the
one-element list of it, and a duplicated list gives the duplicated
per-element results — in both the app and the fetch variant. -/
theorem c7_scalar_list_equivalence (kvs : PyDict) (filt : Option String) :
    (compact_departure_data [("Departure", .obj kvs)] filt =
        compact_departure_data [("Departure", .arr [.obj kvs])] filt) ∧
      (compact_departure_data [("Departure", .arr [.obj kvs, .obj kvs])] filt =
        compact_departure_data [("Departure", .arr [.obj kvs])] filt ++
          compact_departure_data [("Departure", .arr [.obj kvs])] filt) ∧
      (compact_departure_data_fetch [("Departure", .obj kvs)] =
        compact_departure_data_fetch [("Departure", .arr [.obj kvs])]) ∧
      (compact_departure_data_fetch [("Departure", .arr [.obj kvs, .obj kvs])] =
        compact_departure_data_fetch [("Departure", .arr [.obj kvs])] ++
          compact_departure_data_fetch [("Departure", .arr [.obj kvs])]) := by
  refine ⟨rfl, ?_, rfl, rfl⟩
  show compactRowsApp filt [.obj kvs, .obj kvs] =
    compactRowsApp filt [.obj kvs] ++ compactRowsApp filt [.obj kvs]
  cases h : skipApp filt kvs <;> simp [compactRowsApp, h]

/-- The app filter skips exactly where the amended keep-predicate keeps. -/
theorem appKeeps_not_skip (filt : Option String) (dep : PyDict) :
    appKeeps filt dep = !skipApp filt dep := by
  unfold appKeeps skipApp
  rcases filt with _ | f
  · simp
  · rcases h : catOutOf dep with _ | _ | _ | c | _ | _ <;> simp [h]

/-- The fetch filter loop is an order-preserving `filter`. -/
theorem fetchFilterLoop_eq_filter (filters : List String) (deps : List JVal) :
    fetchFilterLoop filters deps = deps.filter (keepFetch filters) := by
  induction deps with
  | nil => rfl
  | cons v rest ih =>
    rcases v with _ | b | n | s | xs | kvs <;>
      try simp [fetchFilterLoop, List.filter_cons, keepFetch, ih]
    cases ho : catOutOf kvs <;>
      simp [fetchFilterLoop, List.filter_cons, keepFetch, ho, ih]

/-- C3, counterexample: with the active filter `"Re"`, the app classifier
keeps a departure that has no `ProductAtStop` at all (the claim requires
it to be excluded). -/
theorem c3_counterexample_missing_category_kept :
    (compact_departure_data
        [("Departure", JVal.arr [JVal.obj [("name", JVal.str "T1")]])]
        (some "Re")).length = 1 :=
  rfl

/-- C3, amended: the fetch script's filter stage keeps exactly the
departures whose `catOut` is a string that lowercases into the requested
set (departures lacking a usable category are excluded there), while the
app's single-code filter keeps a departure unless the filter is a
non-empty string, `catOut` is a string, and the lowercased values differ
— so departures lacking a usable category value pass through it; with
no (or empty) filter everything passes; both stages preserve order.  The
last conjunct is the spec's own `"Re"`/`"re"`/`"IC"` example on the
fetch stage. -/
theorem c3_filters_characterization :
    (∀ (filt : Option String) (deps : List JVal),
      compactRowsApp filt deps = deps.filterMap (fun v =>
        match v with
        | .obj dep => if appKeeps filt dep then some (compactRow dep) else none
        | _ => none)) ∧
      (∀ (catOut : String) (payload : PyDict),
        fetchCatFilterStage catOut payload =
          (listify (pyGet payload "Departure")).filter (keepFetch (parseCatFilters catOut))) ∧
      fetchCatFilterStage "Re"
          [("Departure", JVal.arr
            [JVal.obj [("ProductAtStop", JVal.obj [("catOut", JVal.str "Re")])],
             JVal.obj [("ProductAtStop", JVal.obj [("catOut", JVal.str "re")])],
             JVal.obj [("ProductAtStop", JVal.obj [("catOut", JVal.str "IC")])]])] =
        [JVal.obj [("ProductAtStop", JVal.obj [("catOut", JVal.str "Re")])],
         JVal.obj [("ProductAtStop", JVal.obj [("catOut", JVal.str "re")])]] := by
  refine ⟨fun filt deps => ?_, fun catOut payload => fetchFilterLoop_eq_filter _ _, by rfl⟩
  induction deps with
  | nil => rfl
  | cons v rest ih =>
    rcases v with _ | b | n | s | xs | kvs <;>
      simp only [compactRowsApp, List.filterMap_cons, ih]
    have hsk : skipApp filt kvs = !appKeeps filt kvs := by
      rw [appKeeps_not_skip]; cases skipApp filt kvs <;> rfl
    cases h : appKeeps filt kvs <;> simp [hsk, h]

theorem extractFromKeysE_ok (kvs : PyDict) :
    ∀ ks, extractFromKeysE (.obj kvs) ks = .ok (extractFromKeys kvs ks) := by
  intro ks
  induction ks with
  | nil => rfl
  | cons k ks ih =>
    simp only [extractFromKeysE, extractFromKeys, pyGetE, Bind.bind, Except.bind]
    rcases h : pyGet kvs k with _ | b | n | s | xs | kvs2 <;>
      simp only [h] <;>
      first
        | exact ih
        | (by_cases hs : pyStrip s = "" <;>
            simp [hs, ih, pure, Except.pure])

theorem eduGoE_ok : ∀ (notes : List JVal) (st : DestUpdate),
    eduGoE notes st = .ok (eduGo notes st) := by
  intro notes
  induction notes with
  | nil => intro st; rfl
  | cons note rest ih =>
    intro st
    rcases note with _ | b | n | s | xs | kvs <;> try exact ih _
    show _ = Except.ok (eduGo rest (noteStep kvs st))
    unfold eduGoE noteStep
    rw [show extract_note_text kvs = extractFromKeys kvs ["txtN", "value", "text"] from rfl]
    simp only [pyGetE, extractFromKeysE_ok kvs, Bind.bind, Except.bind]
    by_cases hc : (!truthyStr st.serviceMessage) = true ∧
        (extractFromKeys kvs ["txtN", "value", "text"]).isSome = true ∧
        jvalEqStr (pyGet kvs "type") "R" = true <;>
      by_cases hkey : jvalEqStr (pyGet kvs "key") PART_CANCELLED_NOTE_KEY = true <;>
      simp only [hc, hkey, if_true, if_false, ite_true, ite_false] <;>
      first
        | exact ih _
        | (cases htext : extractFromKeys kvs ["txtN", "value", "text"] <;>
           simp only [htext] <;>
           first
             | exact ih _
             | (rcases hp : parse_partial_cancellation _ with _ | ⟨f, t⟩ <;>
                simp only [hp] <;> exact ih _))

theorem extract_destination_updateE_ok (kvs : PyDict) :
    extract_destination_updateE (.obj kvs) = .ok (extract_destination_update kvs) := by
  unfold extract_destination_updateE extract_destination_update
  simp only [pyGetE, Bind.bind, Except.bind]
  cases hn : pyGet kvs "Notes" <;> simp only [hn] <;> exact eduGoE_ok _ _

theorem pyGetD_of_obj (d : PyDict) (k : String) (p : PyDict) (dflt : JVal)
    (h : pyGet d k = .obj p) : pyGetD d k dflt = .obj p := by
  unfold pyGet at h
  unfold pyGetD
  cases hf : d.find? (fun kv => kv.1 = k) <;> rw [hf] at h <;> simp_all

theorem catOutE_ok (dep : PyDict) : catOutE dep = .ok (catOutOf dep) := by
  unfold catOutE catOutOf
  cases hp : pyGet dep "ProductAtStop" <;> simp only [hp]
  case obj p =>
    simp only [pyGetDE, Bind.bind, Except.bind, pyGetD_of_obj dep _ p _ hp, pyGetE]
  all_goals rfl

theorem compactRowE_ok (dep : PyDict) : compactRowE dep = .ok (compactRow dep) := by
  unfold compactRowE compactRow
  simp only [pyGetE, pyGetDE, Bind.bind, Except.bind, extract_destination_updateE_ok]
  rfl

theorem compactRowsE_ok (filt : Option String) :
    ∀ xs, compactRowsE filt xs = .ok (compactRowsApp filt xs) := by
  intro xs
  induction xs with
  | nil => rfl
  | cons v rest ih =>
    rcases v with _ | b | n | s | ys | dep <;> try exact ih
    show _ = Except.ok (if skipApp filt dep then compactRowsApp filt rest
      else compactRow dep :: compactRowsApp filt rest)
    unfold compactRowsE skipApp
    simp only [catOutE_ok, Bind.bind, Except.bind]
    rcases filt with _ | f <;>
      rcases hc : catOutOf dep with _ | b | n | c | ys2 | kvs2 <;>
      simp only [hc] <;>
      first
        | (simp [ih, compactRowE_ok, pure, Except.pure]; split <;> rfl)
        | simp [ih, compactRowE_ok, pure, Except.pure]

/-- C8: however malformed the payload's `Departure`, `ProductAtStop`,
`Notes`, date/time or note-text fields are, the classifier pipeline
never raises: re-embedded in `Except` — where unguarded attribute access
on a non-dict fails exactly as Python would — it always returns `ok`,
with the same rows the pure embedding computes. -/
theorem c8_pipeline_total (payload : PyDict) (filt : Option String) :
    compact_departure_dataE payload filt = .ok (compact_departure_data payload filt) := by
  unfold compact_departure_dataE compact_departure_data
  cases hd : pyGet payload "Departure" <;>
    simp [compactRowsE_ok, pure, Except.pure]

/-- C9, counterexample: `--mqtt-on` without `--compact-data` is a
configuration error, but `rejseplanen/app.py`'s `main` exits with status
1, not 2. -/
theorem c9_counterexample_config_error_exit :
    (appMain true false (some "key") (FetchOutcome.ok []) true).1 = 1 ∧
      (appMain true false (some "key") (FetchOutcome.ok []) true).1 ≠ 2 := by
  constructor <;> decide

/-- C9, amended: in `fetch_departure_board.py`, publish-enable without
compact-output exits 2 with no network call, as does a missing
credential without publish-enable, while a missing credential with
publish-enable exits 1 (still without fetching); in
`rejseplanen/app.py` every configuration error exits 1 with no network
call.  Success exits 0 and upstream/processing/publish failures exit 1
in both programs. -/
theorem c9_exit_codes :
    (∀ (a : Option String) (f : FetchOutcome) (p : Bool),
        fetchMain true false a f p = (2, false)) ∧
      (∀ (cd : Bool) (f : FetchOutcome) (p : Bool),
        fetchMain false cd none f p = (2, false)) ∧
      (∀ (f : FetchOutcome) (p : Bool), fetchMain true true none f p = (1, false)) ∧
      (∀ (mq cd : Bool) (f : FetchOutcome) (p : Bool),
        appMain mq cd none f p = (1, false)) ∧
      (∀ (a : Option String) (f : FetchOutcome) (p : Bool),
        appMain true false a f p = (1, false)) ∧
      (∀ p : Bool, fetchMain false true (some "k") (.ok []) p = (0, true)) ∧
      (∀ p : Bool, appMain false true (some "k") (.ok []) p = (0, true)) ∧
      (∀ (e : String) (p : Bool), fetchMain false true (some "k") (.exc e) p = (1, true)) ∧
      (∀ (e : String) (p : Bool), appMain false true (some "k") (.exc e) p = (1, true)) ∧
      fetchMain true true (some "k") (.ok []) false = (1, true) ∧
      appMain true true (some "k") (.ok []) false = (1, true) := by
  refine ⟨fun a f p => rfl, fun cd f p => rfl, fun f p => rfl, fun mq cd f p => ?_,
    fun a f p => ?_, fun p => rfl, fun p => rfl, fun e p => rfl, fun e p => rfl, rfl, rfl⟩
  · cases mq <;> cases cd <;> rfl
  · rcases a with _ | s <;> rfl

end Rejseplanen
